import Mathlib

/- Verification of the Health Navigator single-page client
   (health-navigator/src/app2.jsx).  The JavaScript is shallowly embedded:
   each definition below mirrors one function or code path of the source.
   JavaScript numbers are modelled as Int (all values involved are exact
   integers), strings as String, absent/null values as Option. -/

namespace HealthNavigator

/-- Character-by-character global replacement, modelling JavaScript
String.prototype.replace with a global single-character pattern, as used in
app2.jsx line 129: hash.replace of ampersand by comma and of equals by colon. -/
def replaceAllChar (old new : Char) (s : String) : String :=
  String.mk (s.data.map fun c => if c = old then new else c)

/-- Numeric value of a hexadecimal digit (0-9, A-F, a-f by character code),
used by percent-decoding. -/
def hexDigitVal (c : Char) : Option Nat :=
  let n := c.toNat
  if 48 ≤ n ∧ n ≤ 57 then some (n - 48)
  else if 65 ≤ n ∧ n ≤ 70 then some (n - 55)
  else if 97 ≤ n ∧ n ≤ 102 then some (n - 87)
  else none

/-- Percent-decoding of a character list, modelling the decoding step of
URLSearchParams (application/x-www-form-urlencoded parsing); decoded bytes are
modelled at character level, which agrees with the browser on ASCII data. -/
def percentDecodeAux : Nat → List Char → List Char
  | 0, l => l
  | _ + 1, [] => []
  | fuel + 1, c :: rest =>
    if c = '%' then
      match rest with
      | h₁ :: h₂ :: rest₂ =>
        match hexDigitVal h₁, hexDigitVal h₂ with
        | some a, some b => Char.ofNat (16 * a + b) :: percentDecodeAux fuel rest₂
        | _, _ => c :: percentDecodeAux fuel rest
      | _ => c :: percentDecodeAux fuel rest
    else c :: percentDecodeAux fuel rest

/-- Percent-decoding driver: the fuel equal to the input length always
suffices, since every step consumes at least one character. -/
def percentDecodeList (l : List Char) : List Char :=
  percentDecodeAux l.length l

/-- Splitting a character list on a separator character, modelling the
splitting step of URLSearchParams parsing. -/
def splitListOnChar (sep : Char) : List Char → List (List Char)
  | [] => [[]]
  | c :: rest =>
    let r := splitListOnChar sep rest
    if c = sep then [] :: r
    else
      match r with
      | [] => [[c]]
      | h :: t => (c :: h) :: t

/-- Splitting at the first occurrence of a separator: the part before it and,
when the separator occurs, the part after it. -/
def splitAtFirstChar (sep : Char) : List Char → List Char × Option (List Char)
  | [] => ([], none)
  | c :: rest =>
    if c = sep then ([], some rest)
    else
      let p := splitAtFirstChar sep rest
      (c :: p.1, p.2)

/-- Form-urlencoded component decoding: plus becomes space, then
percent-decoding, as URLSearchParams applies to each key and value. -/
def urlDecodeComponent (l : List Char) : String :=
  String.mk (percentDecodeList (l.map fun c => if c = '+' then ' ' else c))

/-- One key-value pair of URLSearchParams: key before the first equals sign,
value after it (empty when there is no equals sign). -/
def parseUrlSearchPair (l : List Char) : String × String :=
  let p := splitAtFirstChar '=' l
  (urlDecodeComponent p.1, urlDecodeComponent (p.2.getD []))

/-- The entries of new URLSearchParams(s): split on ampersand, drop empty
segments, parse each segment into a key-value pair. -/
def urlSearchParamsEntries (s : String) : List (String × String) :=
  ((splitListOnChar '&' s.data).filter (fun l => l ≠ [])).map parseUrlSearchPair

/-- The constant state value the OAuth flow sends and checks
(app2.jsx lines 120 and 137). -/
def googleFitOAuthState : String := "google-fit-connect"

/-- Observable effect of the OAuth redirect-fragment effect hook
(app2.jsx lines 126-144): the access token it sets (none when it sets
nothing), whether the success message is raised, and whether the URL hash is
cleaned up. -/
structure OAuthRedirectEffect where
  googleAccessToken : Option String
  connectedMessage : Bool
  hashCleared : Bool
deriving Repr, DecidableEq

/-- The OAuth redirect fragment handler of app2.jsx lines 126-144: given the
URL fragment (the hash without its leading number sign), it replaces every
ampersand by a comma and every equals sign by a colon, parses the result with
URLSearchParams, looks for entries whose key starts with access_token and with
state, and accepts the token only when it is truthy and the state strictly
equals the constant. -/
def oauthRedirectHandler (fragment : String) : OAuthRedirectEffect :=
  if fragment = "" then ⟨none, false, false⟩
  else
    let transformed := replaceAllChar '=' ':' (replaceAllChar '&' ',' fragment)
    let entries := urlSearchParamsEntries transformed
    let tokenParam := entries.find? fun kv => kv.1.startsWith "access_token"
    let stateParam := entries.find? fun kv => kv.1.startsWith "state"
    let accessToken : Option String := tokenParam.map fun kv => kv.2
    let state : Option String := stateParam.map fun kv => kv.2
    match accessToken with
    | some t =>
      if t ≠ "" ∧ state = some googleFitOAuthState then ⟨some t, true, true⟩
      else ⟨none, false, false⟩
    | none => ⟨none, false, false⟩

/-- Value of a named parameter of the raw fragment under standard
query-string parsing (split on ampersand, key before the first equals sign):
the reading of, for example, the fragment whose state parameter equals a
given value, used to state the claims about the handler. -/
def fragmentParamValue (fragment : String) (key : String) : Option String :=
  ((urlSearchParamsEntries fragment).find? fun kv => kv.1 = key).map fun kv => kv.2

/-- Milliseconds in one day, the constant oneDayMs of fetchSteps
(app2.jsx line 156). -/
def oneDayMs : Int := 24 * 60 * 60 * 1000

/-- The startTimeMillis and endTimeMillis that fetchSteps places in the
aggregate request body (app2.jsx lines 156-174), as a function of the current
time now in milliseconds: endTimeMs is now minus the remainder of now by
oneDayMs minus one, startTimeMs is endTimeMs minus oneDayMs.  The JavaScript
remainder truncates toward zero, modelled exactly by Int.tmod; Date.now() is
never negative, and on non-negative arguments Int.tmod agrees with emod. -/
def fetchStepsWindow (now : Int) : Int × Int :=
  let endTimeMs := now - Int.tmod now oneDayMs - 1
  let startTimeMs := endTimeMs - oneDayMs
  (startTimeMs, endTimeMs)

/-- Modelled from the claim wording only (not from the source): the exact
millisecond boundaries of the prior UTC calendar day, floor(now / 86400000) *
86400000 - 86400000 and floor(now / 86400000) * 86400000, stated with integer
division (floor division, since the divisor is positive).  Used only to
compare fetchStepsWindow against the claimed window. -/
def claimedPriorDayWindow (now : Int) : Int × Int :=
  (now / oneDayMs * oneDayMs - oneDayMs, now / oneDayMs * oneDayMs)

/-- One value object of the fitness API response, carrying an optional
integer field intVal. -/
structure FitValue where
  intVal : Option Int
deriving Repr, DecidableEq

/-- One point of the fitness API response, with an optional list of values. -/
structure FitPoint where
  value : Option (List FitValue)
deriving Repr, DecidableEq

/-- One dataset of the fitness API response, with an optional list of
points. -/
structure FitDataset where
  point : Option (List FitPoint)
deriving Repr, DecidableEq

/-- One bucket of the fitness API response, with an optional list of
datasets. -/
structure FitBucket where
  dataset : Option (List FitDataset)
deriving Repr, DecidableEq

/-- The body of a fitness API aggregate response: an optional list of
buckets. -/
structure FitResponse where
  bucket : Option (List FitBucket)
deriving Repr, DecidableEq

/-- The optional-chaining path
bucket[0].dataset[0].point[0].value[0].intVal of app2.jsx lines 197-198,
yielding the integer when every link is present. -/
def stepPathVal (data : FitResponse) : Option Int :=
  ((((((((data.bucket.bind List.head?).bind
    FitBucket.dataset).bind List.head?).bind
    FitDataset.point).bind List.head?).bind
    FitPoint.value).bind List.head?).bind
    FitValue.intVal)

/-- The step extraction of app2.jsx line 198: the value of the optional chain
with a zero default, where the JavaScript or-operator replaces any falsy
result (absent, null or the number zero) by zero. -/
def extractStepCount (data : FitResponse) : Int :=
  match stepPathVal data with
  | some n => if n = 0 then 0 else n
  | none => 0

/-- The user-visible notices fetchSteps can raise through setMessage, one
constructor per setMessage call site in app2.jsx lines 148-212 (text elided;
the Bool-free constructors are error notices except for fetchedOk). -/
inductive FitMessage where
  | missingToken
  | tokenExpired
  | fetchFailed (detail : String)
  | fetchedOk (steps : Int)
deriving Repr, DecidableEq

/-- The component state fetchSteps reads and writes: the held Google access
token, the displayed step count (null before any fetch), the current notice
and the loading flag. -/
structure FitState where
  googleAccessToken : Option String
  stepCount : Option Int
  message : Option FitMessage
  isFitLoading : Bool
deriving Repr, DecidableEq

/-- Outcome of the HTTP call fetchSteps makes: a parsed JSON body on HTTP
success, a status code with status text otherwise, or a network error. -/
inductive FitHttpOutcome where
  | ok (data : FitResponse)
  | httpError (status : Nat) (statusText : String)
  | networkError (errMessage : String)
deriving Repr, DecidableEq

/-- The fetchSteps callback of app2.jsx lines 148-212 as a state transition:
given the component state and the outcome of the HTTP call, it returns the
new state and the value fetchSteps returns.  With no token it raises the
missing-token notice and returns zero before any request; on HTTP 401 it
raises the reconnect notice, clears the token and returns zero; on any other
non-success status it throws, and the catch clause raises a failure notice,
sets the displayed count to zero and returns zero, as it also does on a
network error; on success it extracts the step count, displays it, raises the
success notice and returns it.  The finally clause clears the loading flag
whenever the request phase was entered. -/
def fetchSteps (s : FitState) (o : FitHttpOutcome) : FitState × Int :=
  match s.googleAccessToken with
  | none => ({ s with message := some FitMessage.missingToken }, 0)
  | some _ =>
    match o with
    | FitHttpOutcome.ok data =>
      let steps := extractStepCount data
      ({ s with stepCount := some steps,
                message := some (FitMessage.fetchedOk steps),
                isFitLoading := false }, steps)
    | FitHttpOutcome.httpError status statusText =>
      if status = 401 then
        ({ s with message := some FitMessage.tokenExpired,
                  googleAccessToken := none,
                  isFitLoading := false }, 0)
      else
        ({ s with message := some (FitMessage.fetchFailed
                    ("Google Fit API error: " ++ statusText)),
                  stepCount := some 0,
                  isFitLoading := false }, 0)
    | FitHttpOutcome.networkError errMessage =>
      ({ s with message := some (FitMessage.fetchFailed errMessage),
                stepCount := some 0,
                isFitLoading := false }, 0)

/-- One chat transcript entry: a role, the text of its single part, and the
source citations attached to model replies (empty for user turns). -/
structure ChatMsg where
  role : String
  text : String
  sources : List (String × String)
deriving Repr, DecidableEq

/-- Truthiness of the optional customPrompt argument of handleGeminiQuery:
JavaScript treats both null and the empty string as falsy. -/
def promptFalsy : Option String → Bool
  | none => true
  | some s => s = ""

/-- JavaScript String.prototype.trim, modelled at character level: drop
whitespace from both ends. -/
def jsTrim (s : String) : String :=
  String.mk
    (((s.data.dropWhile Char.isWhitespace).reverse.dropWhile
      Char.isWhitespace).reverse)

/-- The submit phase of handleGeminiQuery (app2.jsx lines 216-229): none when
the guard returns early (empty trimmed input and no custom prompt); otherwise
the transcript value passed to setChatHistory, which is also the contents
list of the request.  With a custom prompt the new transcript is only the new
user turn; without one it is the previous transcript with the new user turn
appended. -/
def handleGeminiQuerySubmit (chatHistory : List ChatMsg) (chatInput : String)
    (customPrompt : Option String) : Option (List ChatMsg) :=
  if jsTrim chatInput = "" ∧ promptFalsy customPrompt then none
  else
    let userPrompt := if promptFalsy customPrompt then chatInput
      else customPrompt.getD ""
    let newTurn : ChatMsg := ⟨"user", userPrompt, []⟩
    if promptFalsy customPrompt then some (chatHistory ++ [newTurn])
    else some [newTurn]

/-- One grounding attribution of the model response: optional web uri and
title. -/
structure GroundingAttribution where
  uri : Option String
  title : Option String
deriving Repr, DecidableEq

/-- The first candidate of a model response: the optional text of its first
content part and the optional grounding attributions. -/
structure GeminiCandidate where
  text : Option String
  attributions : Option (List GroundingAttribution)
deriving Repr, DecidableEq

/-- Result of the model request as handleGeminiQuery sees it: a network
error, or a parsed body whose first candidate may be absent. -/
inductive GeminiResult where
  | networkError (errMessage : String)
  | response (candidate : Option GeminiCandidate)
deriving Repr, DecidableEq

/-- The citation extraction of app2.jsx lines 256-262: map each attribution
to its web uri and title, keep those where both are truthy (present and
non-empty). -/
def extractSources (attrs : Option (List GroundingAttribution)) :
    List (String × String) :=
  match attrs with
  | none => []
  | some l =>
    l.filterMap fun a =>
      match a.uri, a.title with
      | some u, some t => if u ≠ "" ∧ t ≠ "" then some (u, t) else none
      | _, _ => none

/-- The settle phase of handleGeminiQuery (app2.jsx lines 244-279): given the
transcript at settlement time and the request result, the new transcript.  A
candidate with truthy text appends a model turn with that text and the
extracted citations; a missing candidate or falsy text appends the fixed
model-error turn; a network error appends the connection-error turn. -/
def settleGeminiQuery (history : List ChatMsg) (r : GeminiResult) :
    List ChatMsg :=
  match r with
  | GeminiResult.networkError errMessage =>
    history ++ [⟨"model", "Failed to connect to AI: " ++ errMessage ++ ".", []⟩]
  | GeminiResult.response none =>
    history ++ [⟨"model", "Model response error: Could not generate content.", []⟩]
  | GeminiResult.response (some c) =>
    match c.text with
    | none =>
      history ++ [⟨"model", "Model response error: Could not generate content.", []⟩]
    | some t =>
      if t = "" then
        history ++ [⟨"model", "Model response error: Could not generate content.", []⟩]
      else
        history ++ [⟨"model", t, extractSources c.attributions⟩]

/-- The handleAssessSteps workflow of app2.jsx lines 283-291: run fetchSteps,
and when the guard (steps greater than zero, or steps equal to zero) holds,
send the coaching prompt for exactly that step count; the returned option is
the step count carried by the prompt, none when no prompt is sent. -/
def handleAssessSteps (s : FitState) (o : FitHttpOutcome) : Option Int :=
  let steps := (fetchSteps s o).2
  if steps > 0 ∨ steps = 0 then some steps else none

/-- The fields of the document handleSubmit creates (app2.jsx lines 309-315):
the three form fields, the taken flag initialised to false, and the
server-assigned creation timestamp sentinel. -/
structure MedicationDoc where
  name : String
  dose : String
  time : String
  isTaken : Bool
  createdAtServer : Bool
deriving Repr, DecidableEq

/-- Outcome of a medication form submission: either the single create request
with its document, or the validation notice with no request. -/
inductive SubmitOutcome where
  | created (docFields : MedicationDoc)
  | validationError
deriving Repr, DecidableEq

/-- The medication form handleSubmit of app2.jsx lines 301-323: if any of
name, dose or time is empty (falsy) or the collection reference is missing,
it raises the notice that all fields are required and issues no request;
otherwise it issues exactly one create request carrying name, dose, time,
isTaken false and the server timestamp. -/
def medicationSubmit (name dose time : String) (hasCollectionRef : Bool) :
    SubmitOutcome :=
  if name = "" ∨ dose = "" ∨ time = "" ∨ hasCollectionRef = false then
    SubmitOutcome.validationError
  else
    SubmitOutcome.created ⟨name, dose, time, false, true⟩

/-- One synced medication record as the snapshot listener delivers it
(app2.jsx lines 92-97). -/
structure Medication where
  id : String
  name : String
  dose : String
  time : String
  isTaken : Bool
deriving Repr, DecidableEq

/-- Effect of handleToggleTaken (app2.jsx lines 366-377) on the stored
record: the update request writes the single field isTaken with the negation
of the value read, leaving every other field unchanged. -/
def applyToggleTaken (m : Medication) : Medication :=
  { m with isTaken := !m.isTaken }

/-- The failure paths of the step fetch: missing token, any non-success HTTP
status (401 included), or a network error. -/
def fetchFailurePath (s : FitState) (o : FitHttpOutcome) : Prop :=
  s.googleAccessToken = none ∨
  (∃ status statusText, o = FitHttpOutcome.httpError status statusText) ∨
  (∃ errMessage, o = FitHttpOutcome.networkError errMessage)

end HealthNavigator

namespace HealthNavigator

theorem splitListOnChar_of_not_mem (sep : Char) (l : List Char) (h : sep ∉ l) :
    splitListOnChar sep l = [l] := by
  induction l with
  | nil => rfl
  | cons c rest ih =>
    simp only [List.mem_cons, not_or] at h
    simp only [splitListOnChar, ih h.2]
    simp [Ne.symm h.1]

theorem splitAtFirstChar_of_not_mem (sep : Char) (l : List Char) (h : sep ∉ l) :
    splitAtFirstChar sep l = (l, none) := by
  induction l with
  | nil => rfl
  | cons c rest ih =>
    simp only [List.mem_cons, not_or] at h
    simp [splitAtFirstChar, Ne.symm h.1, ih h.2]

theorem transformed_no_amp_no_eq (s : String) :
    '&' ∉ (replaceAllChar '=' ':' (replaceAllChar '&' ',' s)).data ∧
    '=' ∉ (replaceAllChar '=' ':' (replaceAllChar '&' ',' s)).data := by
  simp only [replaceAllChar, List.map_map]
  constructor <;>
  · intro hmem
    simp only [List.mem_map, Function.comp] at hmem
    obtain ⟨c, -, hc⟩ := hmem
    split_ifs at hc <;> simp_all

/-- On every nonempty string with no ampersand and no equals sign,
URLSearchParams yields exactly one entry, the whole string as key with an
empty value. -/
theorem urlSearchParamsEntries_single (s : String) (hne : s.data ≠ [])
    (hamp : '&' ∉ s.data) (heq : '=' ∉ s.data) :
    urlSearchParamsEntries s = [(urlDecodeComponent s.data, "")] := by
  have hsplit := splitListOnChar_of_not_mem '&' s.data hamp
  have hfirst := splitAtFirstChar_of_not_mem '=' s.data heq
  simp [urlSearchParamsEntries, hsplit, hne, parseUrlSearchPair, hfirst,
    urlDecodeComponent, percentDecodeList, percentDecodeAux]

/-- The redirect handler never sets a token for any fragment: the global
replacement of ampersand and equals destroys the key-value structure, so
URLSearchParams sees a single key with an empty (falsy) value. -/
theorem oauthRedirectHandler_inert (fragment : String) :
    oauthRedirectHandler fragment = ⟨none, false, false⟩ := by
  by_cases hf : fragment = ""
  · simp [oauthRedirectHandler, hf]
  · have hdata : fragment.data ≠ [] := by
      intro h
      exact hf (by cases fragment with
        | mk l => simp_all)
    have hne : (replaceAllChar '=' ':' (replaceAllChar '&' ',' fragment)).data ≠ [] := by
      simp only [replaceAllChar, List.map_map]
      simp [hdata]
    obtain ⟨hamp, heq⟩ := transformed_no_amp_no_eq fragment
    simp only [oauthRedirectHandler, hf, if_false,
      urlSearchParamsEntries_single _ hne hamp heq]
    cases hk :
        (urlDecodeComponent
          (replaceAllChar '=' ':' (replaceAllChar '&' ',' fragment)).data).startsWith
          "access_token" with
    | false =>
      rw [List.find?_cons_of_neg _ (by simp [hk]), List.find?_nil]
      rfl
    | true =>
      rw [List.find?_cons_of_pos _ (by simp [hk])]
      simp

/-- Claim C1: for the fragment access_token=abc&state=google-fit-connect,
whose access_token parameter is abc and whose state parameter equals the
constant google-fit-connect under standard query-string parsing, the OAuth
fragment handler nevertheless sets no token: the global replacement of every
equals sign by a colon and every ampersand by a comma before URLSearchParams
parsing collapses the fragment into a single key with an empty value, so the
extracted token is the empty string, which the truthiness guard rejects. -/
theorem oauth_valid_fragment_sets_no_token :
    fragmentParamValue "access_token=abc&state=google-fit-connect"
        "access_token" = some "abc" ∧
    fragmentParamValue "access_token=abc&state=google-fit-connect"
        "state" = some googleFitOAuthState ∧
    oauthRedirectHandler "access_token=abc&state=google-fit-connect" =
      ⟨none, false, false⟩ :=
  ⟨by decide, by decide, oauthRedirectHandler_inert _⟩

/-- Claim C7: for every redirect fragment whose state parameter, under
standard query-string parsing, is anything other than the constant
google-fit-connect (a missing state included), the OAuth fragment handler
leaves the access token unset and raises no message, clears no hash. -/
theorem oauth_rejects_mismatched_state (fragment : String)
    (_h : fragmentParamValue fragment "state" ≠ some googleFitOAuthState) :
    oauthRedirectHandler fragment = ⟨none, false, false⟩ :=
  oauthRedirectHandler_inert fragment

/-- Witness for claim C7 at the concrete fragment
access_token=abc&state=evil. -/
theorem oauth_rejects_mismatched_state_witness :
    fragmentParamValue "access_token=abc&state=evil" "state" ≠
      some googleFitOAuthState ∧
    oauthRedirectHandler "access_token=abc&state=evil" = ⟨none, false, false⟩ :=
  ⟨by decide, oauth_rejects_mismatched_state _ (by decide)⟩

/-- Counterexample for claim C2: at now equal to 172800000 (two whole days
after the epoch) the code requests the window from 86399999 to 172799999,
not the claimed prior-day boundaries 86400000 to 172800000: every boundary is
one millisecond early. -/
theorem fetchStepsWindow_misses_claimed_boundaries :
    fetchStepsWindow 172800000 = (86399999, 172799999) ∧
    claimedPriorDayWindow 172800000 = (86400000, 172800000) ∧
    fetchStepsWindow 172800000 ≠ claimedPriorDayWindow 172800000 :=
  ⟨by decide, by decide, by decide⟩

/-- Claim C2 as amended: for every non-negative current time now, the window
fetchSteps requests is startTimeMillis equal to floor(now / 86400000) *
86400000 - 86400000 - 1 and endTimeMillis equal to floor(now / 86400000) *
86400000 - 1: a window of exactly one day, but ending one millisecond before
the most recent UTC midnight rather than at it. -/
theorem fetchStepsWindow_off_by_one_day_window (now : Int) (h : 0 ≤ now) :
    fetchStepsWindow now =
      (now / oneDayMs * oneDayMs - oneDayMs - 1,
       now / oneDayMs * oneDayMs - 1) ∧
    (fetchStepsWindow now).2 - (fetchStepsWindow now).1 = oneDayMs := by
  have ht : Int.tmod now (24 * 60 * 60 * 1000) = now % (24 * 60 * 60 * 1000) :=
    Int.tmod_eq_emod h (by decide)
  simp only [fetchStepsWindow, oneDayMs, Prod.ext_iff, ht]
  omega

/-- Witness for the amended claim C2 at now equal to 172800000. -/
theorem fetchStepsWindow_off_by_one_day_window_witness :
    (0 : Int) ≤ 172800000 ∧
    (fetchStepsWindow 172800000 =
      (172800000 / oneDayMs * oneDayMs - oneDayMs - 1,
       172800000 / oneDayMs * oneDayMs - 1) ∧
    (fetchStepsWindow 172800000).2 - (fetchStepsWindow 172800000).1 =
      oneDayMs) :=
  ⟨by decide, fetchStepsWindow_off_by_one_day_window 172800000 (by decide)⟩

/-- Counterexample for claim C3: for the synthetic step-assessment prompt the
submit phase does not append to the transcript: with one prior entry, the
resulting transcript is exactly the single new user turn, and the prior entry
is not in it. -/
theorem geminiSubmit_drops_history_on_custom_prompt :
    handleGeminiQuerySubmit [⟨"user", "hi", []⟩] "" (some "assess") =
      some [⟨"user", "assess", []⟩] ∧
    (⟨"user", "hi", []⟩ : ChatMsg) ∉ [(⟨"user", "assess", []⟩ : ChatMsg)] :=
  ⟨by decide, by decide⟩

/-- Claim C3 as amended: for an ordinary user submission (no custom prompt,
non-blank input) the new user turn is appended to the transcript, preserving
every existing entry in order, and that full transcript is what the request
carries; for the synthetic step-assessment prompt the transcript and the
request contents are instead reset to exactly the single new user turn,
dropping every prior entry. -/
theorem geminiSubmit_appends_or_resets (history : List ChatMsg)
    (input p : String) (hinput : jsTrim input ≠ "") (hp : p ≠ "") :
    handleGeminiQuerySubmit history input none =
      some (history ++ [⟨"user", input, []⟩]) ∧
    handleGeminiQuerySubmit history input (some p) =
      some [⟨"user", p, []⟩] := by
  constructor
  · simp [handleGeminiQuerySubmit, promptFalsy, hinput]
  · simp [handleGeminiQuerySubmit, promptFalsy, hp]

/-- Witness for the amended claim C3 at a concrete transcript, input and
synthetic prompt. -/
theorem geminiSubmit_appends_or_resets_witness :
    jsTrim "hello" ≠ "" ∧ "assess" ≠ "" ∧
    (handleGeminiQuerySubmit [⟨"user", "old", []⟩] "hello" none =
      some ([⟨"user", "old", []⟩] ++ [⟨"user", "hello", []⟩]) ∧
    handleGeminiQuerySubmit [⟨"user", "old", []⟩] "hello" (some "assess") =
      some [⟨"user", "assess", []⟩]) :=
  ⟨by decide, by decide,
   geminiSubmit_appends_or_resets [⟨"user", "old", []⟩] "hello" "assess"
     (by decide) (by decide)⟩

/-- Claim C4: for every transcript and every result of an issued model
request, the settle phase appends exactly one entry, that entry has the model
role, and the transcript grows by exactly one. -/
theorem settleGemini_appends_one_model_entry (history : List ChatMsg)
    (r : GeminiResult) :
    ∃ e : ChatMsg, settleGeminiQuery history r = history ++ [e] ∧
      e.role = "model" ∧
      (settleGeminiQuery history r).length = history.length + 1 := by
  have key : ∃ e : ChatMsg, settleGeminiQuery history r = history ++ [e] ∧
      e.role = "model" := by
    cases r with
    | networkError errMessage => exact ⟨_, rfl, rfl⟩
    | response c =>
      cases c with
      | none => exact ⟨_, rfl, rfl⟩
      | some cand =>
        cases htext : cand.text with
        | none =>
          exact ⟨⟨"model", "Model response error: Could not generate content.",
            []⟩, by simp [settleGeminiQuery, htext], rfl⟩
        | some t =>
          by_cases ht : t = ""
          · exact ⟨⟨"model",
              "Model response error: Could not generate content.", []⟩,
              by simp [settleGeminiQuery, htext, ht], rfl⟩
          · exact ⟨⟨"model", t, extractSources cand.attributions⟩,
              by simp [settleGeminiQuery, htext, ht], rfl⟩
  obtain ⟨e, he, hrole⟩ := key
  exact ⟨e, he, hrole, by simp [he]⟩

/-- Claim C5: for every HTTP-success fitness response, the extracted step
count is the integer along the optional chain
bucket[0].dataset[0].point[0].value[0].intVal when every link is present, and
zero when the chain is absent at any link. -/
theorem extractStepCount_chain_or_zero (data : FitResponse) :
    (∀ n : Int, stepPathVal data = some n → extractStepCount data = n) ∧
    (stepPathVal data = none → extractStepCount data = 0) := by
  constructor
  · intro n hn
    by_cases h0 : n = 0
    · simp [extractStepCount, hn, h0]
    · simp [extractStepCount, hn, h0]
  · intro hn
    simp [extractStepCount, hn]

/-- Witness for claim C5: a response carrying intVal 4321 along the chain
yields 4321, and a response with an empty bucket array yields 0. -/
theorem extractStepCount_chain_or_zero_witness :
    (stepPathVal
        ⟨some [⟨some [⟨some [⟨some [⟨some 4321⟩]⟩]⟩]⟩]⟩ = some 4321 ∧
      extractStepCount
        ⟨some [⟨some [⟨some [⟨some [⟨some 4321⟩]⟩]⟩]⟩]⟩ = 4321) ∧
    (stepPathVal ⟨some []⟩ = none ∧ extractStepCount ⟨some []⟩ = 0) :=
  ⟨⟨by decide,
    (extractStepCount_chain_or_zero
      ⟨some [⟨some [⟨some [⟨some [⟨some 4321⟩]⟩]⟩]⟩]⟩).1 4321 (by decide)⟩,
   ⟨by decide,
    (extractStepCount_chain_or_zero ⟨some []⟩).2 (by decide)⟩⟩

/-- Claim C6: for every component state holding a token, a step fetch whose
HTTP outcome is status 401 clears the held token, raises the reconnect
notice, returns zero and leaves the displayed step count unchanged. -/
theorem fetchSteps_401_clears_token (s : FitState) (t statusText : String)
    (h : s.googleAccessToken = some t) :
    (fetchSteps s (FitHttpOutcome.httpError 401 statusText)).1.googleAccessToken
        = none ∧
    (fetchSteps s (FitHttpOutcome.httpError 401 statusText)).1.message =
      some FitMessage.tokenExpired ∧
    (fetchSteps s (FitHttpOutcome.httpError 401 statusText)).2 = 0 ∧
    (fetchSteps s (FitHttpOutcome.httpError 401 statusText)).1.stepCount =
      s.stepCount := by
  simp [fetchSteps, h]

/-- Witness for claim C6 at a concrete state and status text. -/
theorem fetchSteps_401_clears_token_witness :
    (FitState.mk (some "tok") (some 5) none false).googleAccessToken =
      some "tok" ∧
    ((fetchSteps (FitState.mk (some "tok") (some 5) none false)
        (FitHttpOutcome.httpError 401 "Unauthorized")).1.googleAccessToken
        = none ∧
    (fetchSteps (FitState.mk (some "tok") (some 5) none false)
        (FitHttpOutcome.httpError 401 "Unauthorized")).1.message =
      some FitMessage.tokenExpired ∧
    (fetchSteps (FitState.mk (some "tok") (some 5) none false)
        (FitHttpOutcome.httpError 401 "Unauthorized")).2 = 0 ∧
    (fetchSteps (FitState.mk (some "tok") (some 5) none false)
        (FitHttpOutcome.httpError 401 "Unauthorized")).1.stepCount =
      (FitState.mk (some "tok") (some 5) none false).stepCount) :=
  ⟨rfl, fetchSteps_401_clears_token
    (FitState.mk (some "tok") (some 5) none false) "tok" "Unauthorized" rfl⟩

/-- Claim C8: for every submission with non-empty name, dose and time and an
existing collection reference, exactly one create request is issued carrying
exactly those fields with isTaken false and the server-assigned timestamp;
and for every submission with an empty required field, the validation notice
is raised and no create request is issued. -/
theorem medicationSubmit_creates_or_rejects (name dose time : String)
    (hn : name ≠ "") (hd : dose ≠ "") (ht : time ≠ "") :
    medicationSubmit name dose time true =
      SubmitOutcome.created ⟨name, dose, time, false, true⟩ ∧
    (∀ (n d t : String) (r : Bool), (n = "" ∨ d = "" ∨ t = "") →
      medicationSubmit n d t r = SubmitOutcome.validationError) := by
  constructor
  · simp [medicationSubmit, hn, hd, ht]
  · intro n d t r hempty
    rcases hempty with h | h | h <;> simp [medicationSubmit, h]

/-- Witness for claim C8 at a concrete valid submission and a concrete
submission with an empty name. -/
theorem medicationSubmit_creates_or_rejects_witness :
    ("Aspirin" : String) ≠ "" ∧
    medicationSubmit "Aspirin" "500mg" "08:00" true =
      SubmitOutcome.created ⟨"Aspirin", "500mg", "08:00", false, true⟩ ∧
    medicationSubmit "" "500mg" "08:00" true = SubmitOutcome.validationError :=
  ⟨by decide,
   (medicationSubmit_creates_or_rejects "Aspirin" "500mg" "08:00"
     (by decide) (by decide) (by decide)).1,
   (medicationSubmit_creates_or_rejects "Aspirin" "500mg" "08:00"
     (by decide) (by decide) (by decide)).2 "" "500mg" "08:00" true
     (Or.inl rfl)⟩

/-- Claim C9: the toggle-taken update is an involution on the stored record:
applied twice (the second reading the flag the first wrote) it restores the
record, and one application negates exactly the isTaken field, changing no
other field. -/
theorem toggleTaken_involutive (m : Medication) :
    applyToggleTaken (applyToggleTaken m) = m ∧
    (applyToggleTaken m).isTaken = !m.isTaken ∧
    (applyToggleTaken m).id = m.id ∧
    (applyToggleTaken m).name = m.name ∧
    (applyToggleTaken m).dose = m.dose ∧
    (applyToggleTaken m).time = m.time := by
  cases m with
  | mk id name dose time isTaken => simp [applyToggleTaken]

/-- Counterexample for claim C10: a success response whose intVal is the
negative integer minus one makes fetchSteps return minus one, for which the
guard fails, so no coaching prompt is sent: not every outcome of the step
fetch proceeds to query the model. -/
theorem assess_skips_negative_step_value :
    (fetchSteps (FitState.mk (some "tok") none none false)
      (FitHttpOutcome.ok
        ⟨some [⟨some [⟨some [⟨some [⟨some (-1)⟩]⟩]⟩]⟩]⟩)).2 = -1 ∧
    handleAssessSteps (FitState.mk (some "tok") none none false)
      (FitHttpOutcome.ok
        ⟨some [⟨some [⟨some [⟨some [⟨some (-1)⟩]⟩]⟩]⟩]⟩) = none :=
  ⟨by decide, by decide⟩

/-- Claim C10 as amended: whenever the fetched value is non-negative — which
covers every failure path and every genuine step-count response — the guard
holds and the coaching prompt for exactly that count is sent; moreover every
failure path (missing token, any non-success HTTP status, network error)
returns zero and is therefore assessed identically to a confirmed zero-step
day.  Only a success response carrying a negative intVal, which the step
data type never produces, skips the query. -/
theorem assess_proceeds_on_nonneg_steps (s : FitState) (o : FitHttpOutcome)
    (h : 0 ≤ (fetchSteps s o).2) :
    handleAssessSteps s o = some (fetchSteps s o).2 ∧
    (∀ (s₂ : FitState) (o₂ : FitHttpOutcome), fetchFailurePath s₂ o₂ →
      (fetchSteps s₂ o₂).2 = 0 ∧ handleAssessSteps s₂ o₂ = some 0) := by
  constructor
  · have hguard : (fetchSteps s o).2 > 0 ∨ (fetchSteps s o).2 = 0 := by omega
    simp [handleAssessSteps, hguard]
  · intro s₂ o₂ hfail
    have hzero : (fetchSteps s₂ o₂).2 = 0 := by
      rcases hfail with htok | ⟨status, statusText, ho⟩ | ⟨errMessage, ho⟩
      · simp [fetchSteps, htok]
      · subst ho
        cases htok : s₂.googleAccessToken with
        | none => simp [fetchSteps, htok]
        | some t =>
          by_cases h401 : status = 401 <;> simp [fetchSteps, htok, h401]
      · subst ho
        cases htok : s₂.googleAccessToken with
        | none => simp [fetchSteps, htok]
        | some t => simp [fetchSteps, htok]
    refine ⟨hzero, ?_⟩
    simp [handleAssessSteps, hzero]

/-- Witness for the amended claim C10: a non-success HTTP status 500 yields a
fetched value of zero, the guard holds, and the assessment prompt carries
zero, the same as a confirmed zero-step day. -/
theorem assess_proceeds_on_nonneg_steps_witness :
    (0 : Int) ≤ (fetchSteps (FitState.mk (some "tok") none none false)
      (FitHttpOutcome.httpError 500 "Server Error")).2 ∧
    handleAssessSteps (FitState.mk (some "tok") none none false)
      (FitHttpOutcome.httpError 500 "Server Error") =
      some (fetchSteps (FitState.mk (some "tok") none none false)
        (FitHttpOutcome.httpError 500 "Server Error")).2 ∧
    ((fetchSteps (FitState.mk (some "tok") none none false)
        (FitHttpOutcome.networkError "boom")).2 = 0 ∧
      handleAssessSteps (FitState.mk (some "tok") none none false)
        (FitHttpOutcome.networkError "boom") = some 0) :=
  ⟨by decide,
   (assess_proceeds_on_nonneg_steps (FitState.mk (some "tok") none none false)
     (FitHttpOutcome.httpError 500 "Server Error") (by decide)).1,
   (assess_proceeds_on_nonneg_steps (FitState.mk (some "tok") none none false)
     (FitHttpOutcome.httpError 500 "Server Error") (by decide)).2
     (FitState.mk (some "tok") none none false)
     (FitHttpOutcome.networkError "boom")
     (Or.inr (Or.inr ⟨"boom", rfl⟩))⟩

end HealthNavigator

